import Mathlib

/-!
Verification of the rebate agreement / tier / claim engine of the knaps
backend (`src/storage.py`, `src/db_models.py`, `src/models.py`).

The Python code is shallowly embedded: pydantic input models and ORM rows
become structures, dates become integers (only their order matters),
numerics become rationals, Python exceptions become `Except` error values,
and the database session becomes an explicit `RebateStore` threaded through
the operations.  Python truthiness (`if x:` on an optional numeric treats
both `None` and `0` as false) is modelled explicitly where the source
relies on it.  `uuid.uuid4()` and autoincrementing primary keys are
modelled by a deterministic fresh-name counter carried in the store.
-/

namespace Knaps

/-- `agreement_types` enum of `db_models.RebateAgreement.agreement_type`. -/
inductive AgreementType
  | vendor
  | customer
deriving DecidableEq, Repr

/-- `calc_frequencies` enum of `db_models.RebateAgreement.calc_frequency`. -/
inductive CalcFrequency
  | invoice
  | daily
  | monthly
  | quarterly
  | yearly
deriving DecidableEq, Repr

/-- `rebate_bases` enum of `db_models.RebateAgreement.basis`. -/
inductive Basis
  | quantity
  | amount
deriving DecidableEq, Repr

/-- `rate_types` / `rebate_units` enum (`percentage`, `per_unit`, `fixed`). -/
inductive RebateUnit
  | percentage
  | per_unit
  | fixed
deriving DecidableEq, Repr

/-- `rebate_statuses` enum of `db_models.RebateAgreement.status`. -/
inductive AgreementStatus
  | active
  | expired
deriving DecidableEq, Repr

/-- The distinct failure exits of the rebate storage operations.  Each
constructor corresponds to one `raise` site in `storage.py` (the four
`ValueError` sites) or to a Python `AttributeError` on a missing ORM
attribute. -/
inductive RebateError
  | missingAssociations
  | dateRangeInvalid
  | invalidRange (tierNumber : Nat)
  | overlappingTiers (tierNumber : Nat)
  | overlappingAgreement (description : String)
  | attributeError (name : String)
deriving DecidableEq, Repr

/-- `models.RebateTierCreate` (pydantic input model). -/
structure RebateTierCreate where
  rebate_agreement_uuid : Option String := none
  from_quantity : Option ℚ := none
  to_quantity : Option ℚ := none
  from_amount : Option ℚ := none
  to_amount : Option ℚ := none
  rebate_value : ℚ
  rebate_unit : RebateUnit
deriving DecidableEq, Repr

/-- `models.RebateAgreementCreate` (pydantic input model). -/
structure RebateAgreementCreate where
  agreement_type : AgreementType
  distributor_id : Int
  description : String
  start_date : Int
  end_date : Int
  calc_frequency : CalcFrequency
  basis : Basis
  rate_type : RebateUnit
  approval_required : Bool := false
  products : List Int := []
  product_category_ids : List Int := []
  tiers : List RebateTierCreate := []
deriving DecidableEq, Repr

/-- Sort key of `_validate_tier_ranges`:
`lambda t: t.from_quantity or t.from_amount or 0`, with Python truthiness
(`None` and `0` are both falsy, so a zero `from_quantity` falls through to
`from_amount or 0`). -/
def tierSortKey (t : RebateTierCreate) : ℚ :=
  match t.from_quantity with
  | some x => if x = 0 then t.from_amount.getD 0 else x
  | none => t.from_amount.getD 0

/-- `sorted(tiers, key=tierSortKey)`: Python's `sorted` is a stable sort by
the key under `≤`; insertion sort with `≤` on the keys is the same stable
sort. -/
def sortTiers (tiers : List RebateTierCreate) : List RebateTierCreate :=
  List.insertionSort (fun a b => tierSortKey a ≤ tierSortKey b) tiers

/-- `tier.from_quantity if basis == "quantity" else tier.from_amount`. -/
def fromVal (basis : Basis) (t : RebateTierCreate) : Option ℚ :=
  if basis = Basis.quantity then t.from_quantity else t.from_amount

/-- `tier.to_quantity if basis == "quantity" else tier.to_amount`. -/
def toVal (basis : Basis) (t : RebateTierCreate) : Option ℚ :=
  if basis = Basis.quantity then t.to_quantity else t.to_amount

/-- `from_val is not None and to_val is not None and from_val >= to_val`. -/
def tierRangeBad (basis : Basis) (t : RebateTierCreate) : Bool :=
  match fromVal basis t, toVal basis t with
  | some f, some v => decide (f ≥ v)
  | _, _ => false

/-- `prev_to_val is not None and from_val is not None and prev_to_val > from_val`. -/
def tiersOverlapBad (basis : Basis) (prev t : RebateTierCreate) : Bool :=
  match toVal basis prev, fromVal basis t with
  | some pv, some f => decide (pv > f)
  | _, _ => false

/-- The `for i, tier in enumerate(sorted_tiers)` loop of
`_validate_tier_ranges`: range check first, then (when a previous tier
exists) the overlap check; error messages carry the 1-based tier number
`i+1`. -/
def validateLoop (basis : Basis) : Nat → Option RebateTierCreate → List RebateTierCreate →
    Except RebateError Unit
  | _, _, [] => Except.ok ()
  | i, prev, t :: rest =>
    if tierRangeBad basis t then Except.error (RebateError.invalidRange (i + 1))
    else
      match prev with
      | some p =>
        if tiersOverlapBad basis p t then Except.error (RebateError.overlappingTiers (i + 1))
        else validateLoop basis (i + 1) (some t) rest
      | none => validateLoop basis (i + 1) (some t) rest

/-- `storage._validate_tier_ranges(tiers, basis)`: empty input returns at
once; otherwise the sorted list is scanned by `validateLoop`. -/
def validate_tier_ranges (tiers : List RebateTierCreate) (basis : Basis) :
    Except RebateError Unit :=
  if tiers = [] then Except.ok ()
  else validateLoop basis 0 none (sortTiers tiers)

/-- A row of `db_models.RebateAgreement` (`rebate_agreements` table).  The
table has a `distributor_id` column and — decisive for several claims —
no `party_id` column. -/
structure RebateAgreementRow where
  id : Int
  uuid : String
  agreement_type : AgreementType
  distributor_id : Int
  description : String
  start_date : Int
  end_date : Int
  calc_frequency : CalcFrequency
  basis : Basis
  rate_type : RebateUnit
  approval_required : Bool
  status : AgreementStatus
deriving DecidableEq, Repr

/-- A row of `db_models.RebateAgreementProduct` (`rebate_agreement_products`). -/
structure RebateAgreementProductRow where
  id : Int
  rebate_agreement_id : Int
  product_id : Option Int := none
  category_id : Option Int := none
deriving DecidableEq, Repr

/-- A row of `db_models.RebateTier` (`rebate_tiers`). -/
structure RebateTierRow where
  id : Int
  uuid : String
  rebate_agreement_id : Int
  rebate_agreement_uuid : String
  from_quantity : Option ℚ := none
  to_quantity : Option ℚ := none
  from_amount : Option ℚ := none
  to_amount : Option ℚ := none
  rebate_value : ℚ
  rebate_unit : RebateUnit
deriving DecidableEq, Repr

/-- `claim_statuses` enum of `db_models.RebateClaim.status`. -/
inductive ClaimStatus
  | toCalculate
  | pending
  | approved
  | paid
deriving DecidableEq, Repr

/-- A row of `db_models.RebateClaim` (`rebate_claims`). -/
structure RebateClaimRow where
  id : Int
  rebate_agreement_id : Int
  product_id : Int
  period_start : Option Int := none
  period_end : Option Int := none
  quantity_accumulated : Option ℚ := none
  amount_accumulated : Option ℚ := none
  rebate_amount : ℚ
  status : ClaimStatus := ClaimStatus.toCalculate
  calculation_date : Int
deriving DecidableEq, Repr

/-- Values a Python attribute read on a `RebateAgreement` row can yield. -/
inductive PyVal
  | int (i : Int)
  | str (s : String)
  | date (d : Int)
  | bool (b : Bool)
  | atype (t : AgreementType)
  | freq (f : CalcFrequency)
  | basisVal (b : Basis)
  | unit (u : RebateUnit)
  | statusVal (s : AgreementStatus)
deriving DecidableEq, Repr

/-- Python attribute access on a `RebateAgreement` instance: defined on
exactly the columns declared in `db_models.py`, `none` (an
`AttributeError`) on every other name — in particular on `party_id`. -/
def RebateAgreementRow.getattr (a : RebateAgreementRow) : String → Option PyVal
  | "id" => some (PyVal.int a.id)
  | "uuid" => some (PyVal.str a.uuid)
  | "agreement_type" => some (PyVal.atype a.agreement_type)
  | "distributor_id" => some (PyVal.int a.distributor_id)
  | "description" => some (PyVal.str a.description)
  | "start_date" => some (PyVal.date a.start_date)
  | "end_date" => some (PyVal.date a.end_date)
  | "calc_frequency" => some (PyVal.freq a.calc_frequency)
  | "basis" => some (PyVal.basisVal a.basis)
  | "rate_type" => some (PyVal.unit a.rate_type)
  | "approval_required" => some (PyVal.bool a.approval_required)
  | "status" => some (PyVal.statusVal a.status)
  | _ => none

/-- The column names of the `RebateAgreement` mapped class; class-level
attribute access (`RebateAgreement.party_id` in a `where` clause) resolves
only these and raises `AttributeError` otherwise. -/
def rebateAgreementColumns : List String :=
  ["id", "uuid", "agreement_type", "distributor_id", "description", "start_date",
   "end_date", "calc_frequency", "basis", "rate_type", "approval_required", "status"]

/-- Class-level attribute access `RebateAgreement.<name>` as used when
building a SQLAlchemy statement: yields the column (its name) when it
exists, otherwise the `AttributeError`. -/
def rebateAgreementClassAttr (name : String) : Except RebateError String :=
  if name ∈ rebateAgreementColumns then Except.ok name
  else Except.error (RebateError.attributeError name)

/-- The database state touched by the rebate operations, plus a counter
that models `uuid.uuid4()` and autoincremented primary keys as a
deterministic fresh-name supply. -/
structure RebateStore where
  agreements : List RebateAgreementRow := []
  agreement_products : List RebateAgreementProductRow := []
  tiers : List RebateTierRow := []
  claims : List RebateClaimRow := []
  seq : Nat := 0
deriving DecidableEq, Repr

/-- The `agreement.products` relationship: association rows whose
`rebate_agreement_id` is the agreement's id. -/
def RebateStore.productsOf (s : RebateStore) (aid : Int) : List RebateAgreementProductRow :=
  s.agreement_products.filter (fun r => r.rebate_agreement_id = aid)

/-- The `agreement.tiers` relationship. -/
def RebateStore.tiersOf (s : RebateStore) (aid : Int) : List RebateTierRow :=
  s.tiers.filter (fun r => r.rebate_agreement_id = aid)

/-- Python truthiness on an optional numeric (`if x:`): false for `None`
and for `0`. -/
def pyTruthyNum (x : Option ℚ) : Bool :=
  match x with
  | some v => decide (v ≠ 0)
  | none => false

/-- Python truthiness on an optional integer. -/
def pyTruthyInt (x : Option Int) : Bool :=
  match x with
  | some v => decide (v ≠ 0)
  | none => false

/-- `models.RebateTierRead` (pydantic response model). -/
structure RebateTierRead where
  id : Int
  uuid : String
  agreement_id : Int
  rebate_agreement_uuid : String
  from_quantity : Option ℚ := none
  to_quantity : Option ℚ := none
  from_amount : Option ℚ := none
  to_amount : Option ℚ := none
  rebate_value : ℚ
  rebate_unit : RebateUnit
deriving DecidableEq, Repr

/-- The read model as constructed by `_build_rebate_agreement_response`
(the source passes exactly these fields to `RebateAgreementRead`; it omits
the model's `uuid` field, which is unreachable anyway because the
constructor call first evaluates `agreement.party_id`). -/
structure RebateAgreementRead where
  id : Int
  agreement_type : AgreementType
  distributor_id : Int
  description : String
  start_date : Int
  end_date : Int
  calc_frequency : CalcFrequency
  basis : Basis
  rate_type : RebateUnit
  approval_required : Bool
  products : List Int
  product_category_ids : List Int
  tiers : List RebateTierRead
  status : AgreementStatus
deriving DecidableEq, Repr

/-- `[p.product_id for p in agreement.products if p.product_id]`: note the
Python truthiness test, which drops a stored id equal to `0`. -/
def RebateStore.productIdsOf (s : RebateStore) (aid : Int) : List Int :=
  (s.productsOf aid).filterMap (fun r => if pyTruthyInt r.product_id then r.product_id else none)

/-- `[p.category_id for p in agreement.products if p.category_id]`. -/
def RebateStore.categoryIdsOf (s : RebateStore) (aid : Int) : List Int :=
  (s.productsOf aid).filterMap (fun r => if pyTruthyInt r.category_id then r.category_id else none)

/-- The per-tier `RebateTierRead(...)` construction inside
`_build_rebate_agreement_response`: each bound is passed as
`float(x) if x else None`, so presence is decided by Python truthiness —
a stored bound of `0` is reported as `None`. -/
def tierToRead (tier : RebateTierRow) : RebateTierRead :=
  { id := tier.id
    uuid := tier.uuid
    agreement_id := tier.rebate_agreement_id
    rebate_agreement_uuid := tier.rebate_agreement_uuid
    rebate_value := tier.rebate_value
    rebate_unit := tier.rebate_unit
    from_quantity := if pyTruthyNum tier.from_quantity then tier.from_quantity else none
    to_quantity := if pyTruthyNum tier.to_quantity then tier.to_quantity else none
    from_amount := if pyTruthyNum tier.from_amount then tier.from_amount else none
    to_amount := if pyTruthyNum tier.to_amount then tier.to_amount else none }

/-- `storage._build_rebate_agreement_response`: collects product ids,
category ids and tier read models, then constructs the agreement read
model — whose argument list evaluates `agreement.party_id`, an attribute
the `RebateAgreement` model does not define. -/
def build_rebate_agreement_response (s : RebateStore) (agreement : RebateAgreementRow) :
    Except RebateError RebateAgreementRead :=
  let product_ids := s.productIdsOf agreement.id
  let category_ids := s.categoryIdsOf agreement.id
  let tiers := (s.tiersOf agreement.id).map tierToRead
  match agreement.getattr "party_id" with
  | some (PyVal.int pid) =>
    Except.ok
      { id := agreement.id
        agreement_type := agreement.agreement_type
        distributor_id := pid
        description := agreement.description
        start_date := agreement.start_date
        end_date := agreement.end_date
        calc_frequency := agreement.calc_frequency
        basis := agreement.basis
        rate_type := agreement.rate_type
        approval_required := agreement.approval_required
        products := product_ids
        product_category_ids := category_ids
        tiers := tiers
        status := agreement.status }
  | _ => Except.error (RebateError.attributeError "party_id")

/-- One candidate/existing comparison of `_check_overlapping_agreements`:
date-range intersection, then separate intersection of the product-id
lists and of the category-id lists (no category expansion). -/
def overlapPair (s : RebateStore) (data : RebateAgreementCreate)
    (existing : RebateAgreementRow) : Except RebateError Unit :=
  if data.start_date ≤ existing.end_date ∧ data.end_date ≥ existing.start_date then
    let existing_products := s.productIdsOf existing.id
    let existing_categories := s.categoryIdsOf existing.id
    if data.products.any (fun p => existing_products.contains p) ∨
        data.product_category_ids.any (fun c => existing_categories.contains c) then
      Except.error (RebateError.overlappingAgreement existing.description)
    else Except.ok ()
  else Except.ok ()

/-- The `for existing in existing_agreements` loop of
`_check_overlapping_agreements`. -/
def overlapScan (s : RebateStore) (data : RebateAgreementCreate) :
    List RebateAgreementRow → Except RebateError Unit
  | [] => Except.ok ()
  | e :: rest =>
    match overlapPair s data e with
    | Except.error err => Except.error err
    | Except.ok _ => overlapScan s data rest

/-- `storage._check_overlapping_agreements`: builds
`select(RebateAgreement).where(RebateAgreement.party_id == ..., ...)`.
Evaluating `RebateAgreement.party_id` raises `AttributeError` — the model
has no such column — before the query runs.  The continuation (dead code)
models the filter by reading the `party_id` attribute on each row, which
likewise never matches. -/
def check_overlapping_agreements (s : RebateStore) (data : RebateAgreementCreate) :
    Except RebateError Unit :=
  match rebateAgreementClassAttr "party_id" with
  | Except.error e => Except.error e
  | Except.ok _col =>
    let existing := s.agreements.filter (fun a =>
      decide (a.getattr "party_id" = some (PyVal.int data.distributor_id) ∧
        a.agreement_type = data.agreement_type ∧ a.status = AgreementStatus.active))
    overlapScan s data existing

/-- `storage._create_tier_from_data`: maps a tier input to a `RebateTier`
row; the pair of range columns not matching `basis` is set to `None`.
The `uuid.uuid4()` value and the flush-assigned primary key are supplied
by the caller from the store's fresh-name counter. -/
def create_tier_from_data (tier_data : RebateTierCreate) (agreement_id : Int)
    (agreement_uuid : String) (basis : Basis) (tier_uuid : String) (row_id : Int) :
    RebateTierRow :=
  if basis = Basis.quantity then
    { id := row_id
      uuid := tier_uuid
      rebate_agreement_id := agreement_id
      rebate_agreement_uuid := agreement_uuid
      from_quantity := tier_data.from_quantity
      to_quantity := tier_data.to_quantity
      from_amount := none
      to_amount := none
      rebate_value := tier_data.rebate_value
      rebate_unit := tier_data.rebate_unit }
  else
    { id := row_id
      uuid := tier_uuid
      rebate_agreement_id := agreement_id
      rebate_agreement_uuid := agreement_uuid
      from_quantity := none
      to_quantity := none
      from_amount := tier_data.from_amount
      to_amount := tier_data.to_amount
      rebate_value := tier_data.rebate_value
      rebate_unit := tier_data.rebate_unit }

/-- `uuid.uuid4()` modelled as a deterministic fresh name. -/
def freshUuid (n : Nat) : String := "uuid-" ++ toString n

/-- The `for product_id in products` loop: one association row per product
id, each consuming a fresh primary key. -/
def productAssocRows (aid : Int) : Nat → List Int → List RebateAgreementProductRow × Nat
  | seq, [] => ([], seq)
  | seq, p :: rest =>
    let rec1 := productAssocRows aid (seq + 1) rest
    ({ id := (seq : Int), rebate_agreement_id := aid, product_id := some p,
       category_id := none } :: rec1.1, rec1.2)

/-- The `for category_id in product_category_ids` loop. -/
def categoryAssocRows (aid : Int) : Nat → List Int → List RebateAgreementProductRow × Nat
  | seq, [] => ([], seq)
  | seq, c :: rest =>
    let rec1 := categoryAssocRows aid (seq + 1) rest
    ({ id := (seq : Int), rebate_agreement_id := aid, product_id := none,
       category_id := some c } :: rec1.1, rec1.2)

/-- The `for tier_data in tiers` loop, building rows through
`_create_tier_from_data`. -/
def tierRowsFrom (basis : Basis) (aid : Int) (auuid : String) :
    Nat → List RebateTierCreate → List RebateTierRow × Nat
  | seq, [] => ([], seq)
  | seq, t :: rest =>
    let row := create_tier_from_data t aid auuid basis (freshUuid seq) (seq : Int)
    let rec1 := tierRowsFrom basis aid auuid (seq + 1) rest
    (row :: rec1.1, rec1.2)

/-- `storage.create_rebate_agreement`: validates the association set and
the date range, runs the tier validator, runs the conflict checker, and
only then persists; any exception leaves the session uncommitted, so the
store is returned unchanged on every error raised before `commit`. -/
def create_rebate_agreement (s : RebateStore) (data : RebateAgreementCreate) :
    Except RebateError RebateAgreementRead × RebateStore :=
  if data.products = [] ∧ data.product_category_ids = [] then
    (Except.error RebateError.missingAssociations, s)
  else if data.start_date ≥ data.end_date then
    (Except.error RebateError.dateRangeInvalid, s)
  else
    match (if data.tiers ≠ [] then validate_tier_ranges data.tiers data.basis
           else Except.ok ()) with
    | Except.error e => (Except.error e, s)
    | Except.ok _ =>
      match check_overlapping_agreements s data with
      | Except.error e => (Except.error e, s)
      | Except.ok _ =>
        let aid : Int := (s.seq : Int)
        let auuid := freshUuid s.seq
        let agreement : RebateAgreementRow :=
          { id := aid
            uuid := auuid
            agreement_type := data.agreement_type
            distributor_id := data.distributor_id
            description := data.description
            start_date := data.start_date
            end_date := data.end_date
            calc_frequency := data.calc_frequency
            basis := data.basis
            rate_type := data.rate_type
            approval_required := data.approval_required
            status := AgreementStatus.active }
        let pr := productAssocRows aid (s.seq + 1) data.products
        let cr := categoryAssocRows aid pr.2 data.product_category_ids
        let tr := tierRowsFrom data.basis aid auuid cr.2 data.tiers
        let committed : RebateStore :=
          { s with
            agreements := s.agreements ++ [agreement]
            agreement_products := s.agreement_products ++ pr.1 ++ cr.1
            tiers := s.tiers ++ tr.1
            seq := tr.2 }
        match build_rebate_agreement_response committed agreement with
        | Except.error e => (Except.error e, committed)
        | Except.ok r => (Except.ok r, committed)

/-- `storage.get_rebate_agreements`: optional filters are applied with
Python truthiness (`if distributor_id:` is false for `None` and for `0`);
the `distributor_id` filter is built from `RebateAgreement.party_id`,
which raises `AttributeError`.  The surviving rows are mapped through
`_build_rebate_agreement_response`. -/
def get_rebate_agreements (s : RebateStore) (agreement_type : Option AgreementType)
    (distributor_id : Option Int) (status : Option AgreementStatus) :
    Except RebateError (List RebateAgreementRead) :=
  let rows1 :=
    match agreement_type with
    | some t => s.agreements.filter (fun (a : RebateAgreementRow) => decide (a.agreement_type = t))
    | none => s.agreements
  match (if pyTruthyInt distributor_id then
           (rebateAgreementClassAttr "party_id").map some
         else Except.ok none) with
  | Except.error e => Except.error e
  | Except.ok colOpt =>
    let rows2 :=
      match colOpt, distributor_id with
      | some _, some d =>
        rows1.filter (fun (a : RebateAgreementRow) => decide (a.getattr "party_id" = some (PyVal.int d)))
      | _, _ => rows1
    let rows3 :=
      match status with
      | some st => rows2.filter (fun (a : RebateAgreementRow) => decide (a.status = st))
      | none => rows2
    rows3.mapM (build_rebate_agreement_response s)

/-- `storage.get_rebate_agreement`: `session.get` then the response
builder; `None` when the id is absent. -/
def get_rebate_agreement (s : RebateStore) (agreement_id : Int) :
    Except RebateError (Option RebateAgreementRead) :=
  match s.agreements.find? (fun a => decide (a.id = agreement_id)) with
  | none => Except.ok none
  | some a => (build_rebate_agreement_response s a).map some

/-- The `setattr` loop of `update_rebate_agreement`: every scalar field of
the input is written onto the fetched row; `id`, `uuid` and `status` are
not among the dumped keys and stay untouched. -/
def updatedRow (agreement : RebateAgreementRow) (data : RebateAgreementCreate) :
    RebateAgreementRow :=
  { agreement with
    agreement_type := data.agreement_type
    distributor_id := data.distributor_id
    description := data.description
    start_date := data.start_date
    end_date := data.end_date
    calc_frequency := data.calc_frequency
    basis := data.basis
    rate_type := data.rate_type
    approval_required := data.approval_required }

/-- The store as committed by `update_rebate_agreement`: the agreement row
replaced in place, the agreement's association and tier rows deleted
(`DELETE ... WHERE rebate_agreement_id = :id`) and the new rows
inserted. -/
def updateCommitted (s : RebateStore) (agreement_id : Int)
    (data : RebateAgreementCreate) (agreement : RebateAgreementRow) : RebateStore :=
  let pr := productAssocRows agreement_id s.seq data.products
  let cr := categoryAssocRows agreement_id pr.2 data.product_category_ids
  let tr := tierRowsFrom data.basis agreement.id agreement.uuid cr.2 data.tiers
  { s with
    agreements :=
      s.agreements.map (fun a => if a.id = agreement_id then updatedRow agreement data else a)
    agreement_products :=
      (s.agreement_products.filter
        (fun r => decide (r.rebate_agreement_id ≠ agreement_id))) ++ pr.1 ++ cr.1
    tiers :=
      (s.tiers.filter (fun r => decide (r.rebate_agreement_id ≠ agreement_id))) ++ tr.1
    seq := tr.2 }

/-- `storage.update_rebate_agreement`: fetch, validate (associations,
dates, tiers — all before any write), then `setattr` the scalar fields,
delete the agreement's association and tier rows, insert the new ones,
`commit`, and finally build the response.  The commit precedes the
response builder, so the builder's `party_id` `AttributeError` surfaces
only after the rows are durably replaced. -/
def update_rebate_agreement (s : RebateStore) (agreement_id : Int)
    (data : RebateAgreementCreate) :
    Except RebateError (Option RebateAgreementRead) × RebateStore :=
  match s.agreements.find? (fun a => decide (a.id = agreement_id)) with
  | none => (Except.ok none, s)
  | some agreement =>
    if data.products = [] ∧ data.product_category_ids = [] then
      (Except.error RebateError.missingAssociations, s)
    else if data.start_date ≥ data.end_date then
      (Except.error RebateError.dateRangeInvalid, s)
    else
      match (if data.tiers ≠ [] then validate_tier_ranges data.tiers data.basis
             else Except.ok ()) with
      | Except.error e => (Except.error e, s)
      | Except.ok _ =>
        let committed := updateCommitted s agreement_id data agreement
        match build_rebate_agreement_response committed (updatedRow agreement data) with
        | Except.error e => (Except.error e, committed)
        | Except.ok r => (Except.ok (some r), committed)

/-- `storage.delete_rebate_agreement`: `False` when the id is absent;
otherwise `session.delete` removes the agreement and — per the
`cascade="all, delete-orphan"` declarations on the `products`, `tiers`
and `claims` relationships of `db_models.RebateAgreement` — its
association rows, tier rows and claim rows. -/
def delete_rebate_agreement (s : RebateStore) (agreement_id : Int) : Bool × RebateStore :=
  match s.agreements.find? (fun a => decide (a.id = agreement_id)) with
  | none => (false, s)
  | some _ =>
    (true,
     { s with
       agreements := s.agreements.filter (fun a => decide (a.id ≠ agreement_id))
       agreement_products :=
         s.agreement_products.filter (fun r => decide (r.rebate_agreement_id ≠ agreement_id))
       tiers := s.tiers.filter (fun r => decide (r.rebate_agreement_id ≠ agreement_id))
       claims := s.claims.filter (fun r => decide (r.rebate_agreement_id ≠ agreement_id)) })

/-- Modelled from the spec: the repository has no Claim Calculator
implementation (only the `RebateClaim` table exists); §4.4 describes a
tier input as a range with an optional upper bound and a rebate
value/unit. -/
structure SpecTier where
  lower : ℚ
  upper : Option ℚ
  rebate_value : ℚ
  rebate_unit : RebateUnit
deriving DecidableEq, Repr

/-- Modelled from the spec: a tier matches the accumulated value when the
lower bound is inclusive and the upper bound exclusive; an open-ended tier
(no upper bound) accepts any value at or above its lower bound. -/
def specTierMatches (t : SpecTier) (accumulated : ℚ) : Bool :=
  decide (t.lower ≤ accumulated) &&
    match t.upper with
    | some u => decide (accumulated < u)
    | none => true

/-- Modelled from the spec: tier selection for `CalculateClaim` — the tier
whose range contains the accumulated value. -/
def selectTier (tiers : List SpecTier) (accumulated : ℚ) : Option SpecTier :=
  tiers.find? (fun t => specTierMatches t accumulated)

/-- Modelled from the spec: the rebate amount of a matched tier —
`percentage`: `accumulated * rebate_value / 100`; `per_unit`:
`accumulated * rebate_value`; `fixed`: `rebate_value`. -/
def specRebateAmount (t : SpecTier) (accumulated : ℚ) : ℚ :=
  match t.rebate_unit with
  | RebateUnit.percentage => accumulated * t.rebate_value / 100
  | RebateUnit.per_unit => accumulated * t.rebate_value
  | RebateUnit.fixed => t.rebate_value

/-- Modelled from the spec: `CalculateClaim` on the agreement's tiers and
the accumulated activity; `none` when no tier matches (the value is
outside every tier), which the caller treats as not-yet-eligible. -/
def calculateClaim (tiers : List SpecTier) (accumulated : ℚ) : Option ℚ :=
  (selectTier tiers accumulated).map (fun t => specRebateAmount t accumulated)

/-- Two spec tiers are disjoint when no accumulated value matches both —
the invariant the Tier Validator maintains for an agreement's tiers. -/
def specTierDisjoint (a b : SpecTier) : Prop :=
  ∀ q : ℚ, ¬(specTierMatches a q = true ∧ specTierMatches b q = true)

/-- Some adjacent pair of the list violates the overlap condition
(`previous.to` and `current.from` present with `previous.to > current.from`). -/
def hasBadAdjacent (basis : Basis) : List RebateTierCreate → Bool
  | a :: b :: rest => tiersOverlapBad basis a b || hasBadAdjacent basis (b :: rest)
  | _ => false

/-- The overlap condition holds along the list, including against the
optional previous tier carried by the validation loop. -/
def overlapChainOk (basis : Basis) :
    Option RebateTierCreate → List RebateTierCreate → Prop
  | some p, l => List.Chain (fun a b => tiersOverlapBad basis a b = false) p l
  | none, l => List.Chain' (fun a b => tiersOverlapBad basis a b = false) l

/-! ### Concrete instances used in counterexamples and witnesses -/

/-- Scenario-C style existing agreement: party 7, vendor, active,
dates `[0, 89]`. -/
def exAgreementA : RebateAgreementRow :=
  { id := 1, uuid := "uuid-a", agreement_type := AgreementType.vendor,
    distributor_id := 7, description := "agreement A", start_date := 0,
    end_date := 89, calc_frequency := CalcFrequency.monthly,
    basis := Basis.quantity, rate_type := RebateUnit.percentage,
    approval_required := false, status := AgreementStatus.active }

/-- A second stored agreement (the one being updated), party 7, vendor,
dates `[200, 300]`. -/
def exAgreementB : RebateAgreementRow :=
  { id := 2, uuid := "uuid-b", agreement_type := AgreementType.vendor,
    distributor_id := 7, description := "agreement B", start_date := 200,
    end_date := 300, calc_frequency := CalcFrequency.monthly,
    basis := Basis.quantity, rate_type := RebateUnit.percentage,
    approval_required := false, status := AgreementStatus.active }

/-- Store holding both agreements; A covers product 55, B covers
product 66. -/
def exStoreC : RebateStore :=
  { agreements := [exAgreementA, exAgreementB],
    agreement_products :=
      [{ id := 10, rebate_agreement_id := 1, product_id := some 55 },
       { id := 11, rebate_agreement_id := 2, product_id := some 66 }],
    tiers := [], claims := [], seq := 100 }

/-- Candidate input: party 7, vendor, dates `[59, 180]`, product 55 —
overlapping `exAgreementA` in dates and products. -/
def exDataC : RebateAgreementCreate :=
  { agreement_type := AgreementType.vendor, distributor_id := 7,
    description := "candidate", start_date := 59, end_date := 180,
    calc_frequency := CalcFrequency.monthly, basis := Basis.quantity,
    rate_type := RebateUnit.percentage, approval_required := false,
    products := [55], product_category_ids := [], tiers := [] }

/-- The candidate input with its product and category association lists
emptied. -/
def exDataEmpty : RebateAgreementCreate :=
  { exDataC with products := [], product_category_ids := [] }

/-- A tier input carrying values in all four range fields. -/
def exTierInput : RebateTierCreate :=
  { from_quantity := some 0, to_quantity := some 10, from_amount := some 7,
    to_amount := some 9, rebate_value := 5, rebate_unit := RebateUnit.percentage }

/-- The candidate input extended with one tier. -/
def exDataTier : RebateAgreementCreate := { exDataC with tiers := [exTierInput] }

/-- The tier row the update of agreement 2 with `exDataTier` persists. -/
def exTierRow : RebateTierRow :=
  create_tier_from_data exTierInput 2 "uuid-b" Basis.quantity (freshUuid 101) 101

/-- Tier `(0, 10)` on the quantity basis. -/
def cxTier1 : RebateTierCreate :=
  { from_quantity := some 0, to_quantity := some 10,
    rebate_value := 1, rebate_unit := RebateUnit.percentage }

/-- Tier `(5, 3)` — an inverted range that also overlaps `cxTier1`. -/
def cxTier2 : RebateTierCreate :=
  { from_quantity := some 5, to_quantity := some 3,
    rebate_value := 1, rebate_unit := RebateUnit.percentage }

/-- Tier `(5, 20)` — valid range overlapping `cxTier1`. -/
def cxTier3 : RebateTierCreate :=
  { from_quantity := some 5, to_quantity := some 20,
    rebate_value := 1, rebate_unit := RebateUnit.percentage }

/-- Tier `(10, 20)` — contiguous with `cxTier1`. -/
def tierContig : RebateTierCreate :=
  { from_quantity := some 10, to_quantity := some 20,
    rebate_value := 1, rebate_unit := RebateUnit.percentage }

/-- A tier with no lower bound for the quantity basis and upper bound 20. -/
def tierNoLower : RebateTierCreate :=
  { from_quantity := none, to_quantity := some 20,
    rebate_value := 1, rebate_unit := RebateUnit.percentage }

/-! ### Helper lemmas -/

lemma classAttr_party_id_error :
    rebateAgreementClassAttr "party_id" =
      Except.error (RebateError.attributeError "party_id") := by rfl

lemma getattr_party_id (a : RebateAgreementRow) : a.getattr "party_id" = none := rfl

lemma build_response_attributeError (s : RebateStore) (a : RebateAgreementRow) :
    build_rebate_agreement_response s a =
      Except.error (RebateError.attributeError "party_id") := rfl

lemma check_overlapping_attributeError (s : RebateStore) (data : RebateAgreementCreate) :
    check_overlapping_agreements s data =
      Except.error (RebateError.attributeError "party_id") := by
  unfold check_overlapping_agreements
  rw [classAttr_party_id_error]

lemma get_agreements_filtered_attributeError (s : RebateStore)
    (agreement_type : Option AgreementType) (distributor_id : Option Int)
    (status : Option AgreementStatus) (h : pyTruthyInt distributor_id = true) :
    get_rebate_agreements s agreement_type distributor_id status =
      Except.error (RebateError.attributeError "party_id") := by
  unfold get_rebate_agreements
  rw [if_pos h, classAttr_party_id_error]
  rfl

lemma create_fst_ne_ok (s : RebateStore) (data : RebateAgreementCreate)
    (r : RebateAgreementRead) :
    (create_rebate_agreement s data).1 ≠ Except.ok r := by
  unfold create_rebate_agreement
  split
  · simp
  · split
    · simp
    · split
      · simp
      · rw [check_overlapping_attributeError]
        simp

/-! ### Claim C1 -/

/-- C1: the conflict check inside `create_rebate_agreement`,
`get_rebate_agreements` with a truthy `distributor_id` filter, and
`_build_rebate_agreement_response` all read the attribute `party_id` of
`RebateAgreement`, which defines a `distributor_id` column and no
`party_id`; on every input these operations fail with an `AttributeError`
instead of returning the specified agreement result — in particular
`create_rebate_agreement` never returns a result. -/
theorem claim_C1_party_id_attribute_error :
    ("party_id" ∉ rebateAgreementColumns ∧ "distributor_id" ∈ rebateAgreementColumns)
    ∧ (∀ (s : RebateStore) (data : RebateAgreementCreate),
        check_overlapping_agreements s data =
          Except.error (RebateError.attributeError "party_id"))
    ∧ (∀ (s : RebateStore) (agreement_type : Option AgreementType)
        (distributor_id : Option Int) (status : Option AgreementStatus),
        pyTruthyInt distributor_id = true →
        get_rebate_agreements s agreement_type distributor_id status =
          Except.error (RebateError.attributeError "party_id"))
    ∧ (∀ (s : RebateStore) (a : RebateAgreementRow),
        build_rebate_agreement_response s a =
          Except.error (RebateError.attributeError "party_id"))
    ∧ (∀ (s : RebateStore) (data : RebateAgreementCreate) (r : RebateAgreementRead),
        (create_rebate_agreement s data).1 ≠ Except.ok r) := by
  refine ⟨⟨by decide, by decide⟩, ?_, ?_, ?_, ?_⟩
  · exact check_overlapping_attributeError
  · exact fun s t d st h => get_agreements_filtered_attributeError s t d st h
  · exact build_response_attributeError
  · exact create_fst_ne_ok

/-- Witness for C1 at a concrete store and filter. -/
theorem claim_C1_witness :
    pyTruthyInt (some 7) = true ∧
    get_rebate_agreements exStoreC none (some 7) none =
      Except.error (RebateError.attributeError "party_id") :=
  ⟨by decide, claim_C1_party_id_attribute_error.2.2.1 exStoreC none (some 7) none (by decide)⟩

/-! ### Claim C3 -/

/-- C3 counterexample: with `exStoreC` and `exDataC` every condition of
the claim holds — `exAgreementA` is stored, active, of the same
`agreement_type` and `distributor_id` as the candidate, the date ranges
intersect, and product 55 is listed on both sides — yet the conflict
check does not raise `OverlappingAgreement`: it fails with the
`party_id` `AttributeError` while building its query. -/
theorem claim_C3_counterexample :
    (exAgreementA ∈ exStoreC.agreements
      ∧ exAgreementA.status = AgreementStatus.active
      ∧ exAgreementA.agreement_type = exDataC.agreement_type
      ∧ exAgreementA.distributor_id = exDataC.distributor_id
      ∧ exDataC.start_date ≤ exAgreementA.end_date
      ∧ exDataC.end_date ≥ exAgreementA.start_date
      ∧ (55 : Int) ∈ exDataC.products
      ∧ (55 : Int) ∈ exStoreC.productIdsOf exAgreementA.id)
    ∧ check_overlapping_agreements exStoreC exDataC =
        Except.error (RebateError.attributeError "party_id")
    ∧ ∀ d, check_overlapping_agreements exStoreC exDataC ≠
        Except.error (RebateError.overlappingAgreement d) := by
  refine ⟨by decide, check_overlapping_attributeError _ _, ?_⟩
  intro d h
  rw [check_overlapping_attributeError] at h
  exact RebateError.noConfusion (Except.error.inj h)

/-- C3 amended: `_check_overlapping_agreements` never succeeds and never
raises `OverlappingAgreement`; for every session snapshot and candidate
it fails with an `AttributeError` on `party_id` while building its query
(`RebateAgreement` has no `party_id` column), before any pair comparison
runs. -/
theorem claim_C3_amended_check_always_attribute_error :
    (∀ (s : RebateStore) (data : RebateAgreementCreate),
      check_overlapping_agreements s data =
        Except.error (RebateError.attributeError "party_id"))
    ∧ (∀ (s : RebateStore) (data : RebateAgreementCreate) (d : String),
      check_overlapping_agreements s data ≠
        Except.error (RebateError.overlappingAgreement d)) := by
  refine ⟨check_overlapping_attributeError, ?_⟩
  intro s data d h
  rw [check_overlapping_attributeError] at h
  exact RebateError.noConfusion (Except.error.inj h)

/-- Witness for the amended C3 at a concrete input. -/
theorem claim_C3_witness :
    check_overlapping_agreements exStoreC exDataC =
      Except.error (RebateError.attributeError "party_id") :=
  claim_C3_amended_check_always_attribute_error.1 exStoreC exDataC

/-! ### Claim C10 -/

/-- C10: the response builder decides presence of a stored tier bound by
Python truthiness, so a bound stored as `0` is reported as `None` in the
read model (for all four bound columns), and a tier whose lower bound is
`0` is indistinguishable from a tier with no lower bound. -/
theorem claim_C10_zero_bound_reported_none (tier : RebateTierRow) :
    (tierToRead { tier with from_quantity := some 0 }).from_quantity = none
    ∧ (tierToRead { tier with to_quantity := some 0 }).to_quantity = none
    ∧ (tierToRead { tier with from_amount := some 0 }).from_amount = none
    ∧ (tierToRead { tier with to_amount := some 0 }).to_amount = none
    ∧ tierToRead { tier with from_quantity := some 0 } =
        tierToRead { tier with from_quantity := none } :=
  ⟨rfl, rfl, rfl, rfl, rfl⟩

/-! ### Tier validator lemmas -/

lemma tierRangeBad_eq_false_iff (basis : Basis) (t : RebateTierCreate) :
    tierRangeBad basis t = false ↔
      ∀ f v, fromVal basis t = some f → toVal basis t = some v → f < v := by
  unfold tierRangeBad
  rcases hf : fromVal basis t with _ | f <;> rcases hv : toVal basis t with _ | v <;>
    simp [not_le]

lemma tiersOverlapBad_eq_false_iff (basis : Basis) (p t : RebateTierCreate) :
    tiersOverlapBad basis p t = false ↔
      ∀ pv f, toVal basis p = some pv → fromVal basis t = some f → pv ≤ f := by
  unfold tiersOverlapBad
  rcases hp : toVal basis p with _ | pv <;> rcases hf : fromVal basis t with _ | f <;>
    simp [not_lt]

lemma tierRangeBad_from_isSome (basis : Basis) (t : RebateTierCreate)
    (h : tierRangeBad basis t = true) : (fromVal basis t).isSome = true := by
  unfold tierRangeBad at h
  rcases hf : fromVal basis t with _ | f <;> rw [hf] at h
  · rcases toVal basis t with _ | v <;> simp at h
  · rfl

lemma tiersOverlapBad_from_isSome (basis : Basis) (p t : RebateTierCreate)
    (h : tiersOverlapBad basis p t = true) : (fromVal basis t).isSome = true := by
  unfold tiersOverlapBad at h
  rcases hp : toVal basis p with _ | pv <;> rw [hp] at h
  · simp at h
  · rcases hf : fromVal basis t with _ | f <;> rw [hf] at h
    · simp at h
    · rfl

lemma validateLoop_ok (basis : Basis) :
    ∀ (l : List RebateTierCreate) (i : Nat) (prev : Option RebateTierCreate),
      (∀ t ∈ l, tierRangeBad basis t = false) → overlapChainOk basis prev l →
      validateLoop basis i prev l = Except.ok () := by
  intro l
  induction l with
  | nil => intro i prev _ _; cases prev <;> rfl
  | cons t rest ih =>
    intro i prev hr hc
    have hrt : tierRangeBad basis t = false := hr t (List.mem_cons_self t rest)
    cases prev with
    | none =>
      have hrest : List.Chain (fun a b => tiersOverlapBad basis a b = false) t rest := hc
      simp only [validateLoop, hrt, Bool.false_eq_true, if_false]
      exact ih (i + 1) (some t) (fun u hu => hr u (List.mem_cons_of_mem t hu)) hrest
    | some p =>
      rcases List.chain_cons.mp hc with ⟨hpt, hrest⟩
      simp only [validateLoop, hrt, Bool.false_eq_true, if_false, hpt]
      exact ih (i + 1) (some t) (fun u hu => hr u (List.mem_cons_of_mem t hu)) hrest

lemma validateLoop_error_shape (basis : Basis) :
    ∀ (l : List RebateTierCreate) (i : Nat) (prev : Option RebateTierCreate)
      (e : RebateError), validateLoop basis i prev l = Except.error e →
      (∃ j, e = RebateError.invalidRange j) ∨ ∃ j, e = RebateError.overlappingTiers j := by
  intro l
  induction l with
  | nil => intro i prev e h; cases prev <;> exact absurd h (by simp [validateLoop])
  | cons t rest ih =>
    intro i prev e h
    by_cases hrt : tierRangeBad basis t = true
    · simp only [validateLoop, hrt, if_true, Except.error.injEq] at h
      exact Or.inl ⟨i + 1, h.symm⟩
    · have hrt' := eq_false_of_ne_true hrt
      cases prev with
      | none =>
        simp only [validateLoop, hrt', Bool.false_eq_true, if_false] at h
        exact ih (i + 1) (some t) e h
      | some p =>
        by_cases hop : tiersOverlapBad basis p t = true
        · simp only [validateLoop, hrt', Bool.false_eq_true, if_false, hop, if_true,
            Except.error.injEq] at h
          exact Or.inr ⟨i + 1, h.symm⟩
        · have hop' := eq_false_of_ne_true hop
          simp only [validateLoop, hrt', hop', Bool.false_eq_true, if_false] at h
          exact ih (i + 1) (some t) e h

lemma validateLoop_error_of_bad (basis : Basis) :
    ∀ (l : List RebateTierCreate) (i : Nat) (prev : Option RebateTierCreate),
      hasBadAdjacent basis l = true →
      ∃ e, validateLoop basis i prev l = Except.error e := by
  intro l
  induction l with
  | nil => intro i prev h; exact absurd h (by simp [hasBadAdjacent])
  | cons a tail ih =>
    intro i prev h
    cases tail with
    | nil => exact absurd h (by simp [hasBadAdjacent])
    | cons b rest =>
      by_cases hra : tierRangeBad basis a = true
      · exact ⟨RebateError.invalidRange (i + 1), by simp [validateLoop, hra]⟩
      · have hra' := eq_false_of_ne_true hra
        have hbad : tiersOverlapBad basis a b = true ∨ hasBadAdjacent basis (b :: rest) = true := by
          simpa [hasBadAdjacent, Bool.or_eq_true] using h
        have step :
            ∃ e, validateLoop basis (i + 1) (some a) (b :: rest) = Except.error e := by
          rcases hbad with hab | hrest
          · by_cases hrb : tierRangeBad basis b = true
            · exact ⟨RebateError.invalidRange (i + 2), by simp [validateLoop, hrb]⟩
            · exact ⟨RebateError.overlappingTiers (i + 2),
                by simp [validateLoop, eq_false_of_ne_true hrb, hab]⟩
          · exact ih (i + 1) (some a) hrest
        cases prev with
        | none =>
          obtain ⟨e, he⟩ := step
          exact ⟨e, by simp only [validateLoop, hra', Bool.false_eq_true, if_false]; exact he⟩
        | some p =>
          by_cases hop : tiersOverlapBad basis p a = true
          · exact ⟨RebateError.overlappingTiers (i + 1), by simp [validateLoop, hra', hop]⟩
          · obtain ⟨e, he⟩ := step
            refine ⟨e, ?_⟩
            simp only [validateLoop, hra', Bool.false_eq_true, if_false,
              eq_false_of_ne_true hop]
            exact he

lemma validateLoop_no_invalidRange (basis : Basis) :
    ∀ (l : List RebateTierCreate) (i : Nat) (prev : Option RebateTierCreate) (j : Nat),
      (∀ t ∈ l, tierRangeBad basis t = false) →
      validateLoop basis i prev l ≠ Except.error (RebateError.invalidRange j) := by
  intro l
  induction l with
  | nil => intro i prev j _ h; cases prev <;> exact absurd h (by simp [validateLoop])
  | cons t rest ih =>
    intro i prev j hr h
    have hrt : tierRangeBad basis t = false := hr t (List.mem_cons_self t rest)
    cases prev with
    | none =>
      simp only [validateLoop, hrt, Bool.false_eq_true, if_false] at h
      exact ih (i + 1) (some t) j (fun u hu => hr u (List.mem_cons_of_mem t hu)) h
    | some p =>
      by_cases hop : tiersOverlapBad basis p t = true
      · simp [validateLoop, hrt, hop] at h
      · have hop' := eq_false_of_ne_true hop
        simp only [validateLoop, hrt, hop', Bool.false_eq_true, if_false] at h
        exact ih (i + 1) (some t) j (fun u hu => hr u (List.mem_cons_of_mem t hu)) h

lemma validateLoop_error_from_present (basis : Basis) :
    ∀ (l : List RebateTierCreate) (i : Nat) (prev : Option RebateTierCreate)
      (e : RebateError), validateLoop basis i prev l = Except.error e →
      ∃ t ∈ l, (fromVal basis t).isSome = true := by
  intro l
  induction l with
  | nil => intro i prev e h; cases prev <;> exact absurd h (by simp [validateLoop])
  | cons t rest ih =>
    intro i prev e h
    by_cases hrt : tierRangeBad basis t = true
    · exact ⟨t, List.mem_cons_self t rest, tierRangeBad_from_isSome basis t hrt⟩
    · have hrt' := eq_false_of_ne_true hrt
      cases prev with
      | none =>
        simp only [validateLoop, hrt', Bool.false_eq_true, if_false] at h
        obtain ⟨u, hu, hs⟩ := ih (i + 1) (some t) e h
        exact ⟨u, List.mem_cons_of_mem t hu, hs⟩
      | some p =>
        by_cases hop : tiersOverlapBad basis p t = true
        · exact ⟨t, List.mem_cons_self t rest, tiersOverlapBad_from_isSome basis p t hop⟩
        · have hop' := eq_false_of_ne_true hop
          simp only [validateLoop, hrt', hop', Bool.false_eq_true, if_false] at h
          obtain ⟨u, hu, hs⟩ := ih (i + 1) (some t) e h
          exact ⟨u, List.mem_cons_of_mem t hu, hs⟩

lemma validate_error_shape (tiers : List RebateTierCreate) (basis : Basis)
    (e : RebateError) (h : validate_tier_ranges tiers basis = Except.error e) :
    (∃ j, e = RebateError.invalidRange j) ∨ ∃ j, e = RebateError.overlappingTiers j := by
  unfold validate_tier_ranges at h
  split at h
  · exact absurd h (by simp)
  · exact validateLoop_error_shape basis (sortTiers tiers) 0 none e h

/-! ### Claim C4 -/

/-- C4 counterexample: for `[cxTier1, cxTier2] = [(0,10),(5,3)]` the
sorted list has an adjacent pair with `to_1 = 10 > 5 = from_2`, so the
claim requires an `OverlappingTiers` failure — but the validator raises
`InvalidRange` for tier 2 (checked first), not `OverlappingTiers`. -/
theorem claim_C4_counterexample :
    sortTiers [cxTier1, cxTier2] = [cxTier1, cxTier2]
    ∧ toVal Basis.quantity cxTier1 = some 10
    ∧ fromVal Basis.quantity cxTier2 = some 5
    ∧ ((5 : ℚ) < 10)
    ∧ validate_tier_ranges [cxTier1, cxTier2] Basis.quantity =
        Except.error (RebateError.invalidRange 2)
    ∧ ∀ j, validate_tier_ranges [cxTier1, cxTier2] Basis.quantity ≠
        Except.error (RebateError.overlappingTiers j) := by
  refine ⟨by decide, rfl, rfl, by norm_num, rfl, ?_⟩
  intro j h
  rw [show validate_tier_ranges [cxTier1, cxTier2] Basis.quantity =
        Except.error (RebateError.invalidRange 2) from rfl] at h
  exact RebateError.noConfusion (Except.error.inj h)

/-- C4 amended: if after sorting every tier with both bounds present has
`from < to` and every adjacent pair satisfies `to_i ≤ from_{i+1}`,
`validate_tiers` succeeds (contiguous tiers are accepted); if some
adjacent sorted pair has `to_i > from_{i+1}`, it fails — with an
`OverlappingTiers` error when every tier's own range is valid, but with
an `InvalidRange` error when a tier with `from ≥ to` is checked first. -/
theorem claim_C4_amended_tier_validation :
    (∀ (tiers : List RebateTierCreate) (basis : Basis),
      (∀ t ∈ sortTiers tiers, ∀ f v,
        fromVal basis t = some f → toVal basis t = some v → f < v) →
      List.Chain' (fun a b => ∀ pv f,
        toVal basis a = some pv → fromVal basis b = some f → pv ≤ f) (sortTiers tiers) →
      validate_tier_ranges tiers basis = Except.ok ())
    ∧ validate_tier_ranges [cxTier1, tierContig] Basis.quantity = Except.ok ()
    ∧ (∀ (tiers : List RebateTierCreate) (basis : Basis),
      hasBadAdjacent basis (sortTiers tiers) = true →
      ∃ e, validate_tier_ranges tiers basis = Except.error e)
    ∧ (∀ (tiers : List RebateTierCreate) (basis : Basis),
      (∀ t ∈ sortTiers tiers, ∀ f v,
        fromVal basis t = some f → toVal basis t = some v → f < v) →
      hasBadAdjacent basis (sortTiers tiers) = true →
      ∃ j, validate_tier_ranges tiers basis =
        Except.error (RebateError.overlappingTiers j)) := by
  refine ⟨?_, rfl, ?_, ?_⟩
  · intro tiers basis hr hc
    unfold validate_tier_ranges
    split
    · rfl
    · exact validateLoop_ok basis (sortTiers tiers) 0 none
        (fun t ht => (tierRangeBad_eq_false_iff basis t).mpr (hr t ht))
        (hc.imp (fun a b hab => (tiersOverlapBad_eq_false_iff basis a b).mpr hab))
  · intro tiers basis hbad
    have hne : tiers ≠ [] := by
      intro h
      subst h
      simp [sortTiers, List.insertionSort, hasBadAdjacent] at hbad
    obtain ⟨e, he⟩ := validateLoop_error_of_bad basis (sortTiers tiers) 0 none hbad
    refine ⟨e, ?_⟩
    unfold validate_tier_ranges
    rw [if_neg hne]
    exact he
  · intro tiers basis hr hbad
    have hr' : ∀ t ∈ sortTiers tiers, tierRangeBad basis t = false :=
      fun t ht => (tierRangeBad_eq_false_iff basis t).mpr (hr t ht)
    have hne : tiers ≠ [] := by
      intro h
      subst h
      simp [sortTiers, List.insertionSort, hasBadAdjacent] at hbad
    obtain ⟨e, he⟩ := validateLoop_error_of_bad basis (sortTiers tiers) 0 none hbad
    have he' : validate_tier_ranges tiers basis = Except.error e := by
      unfold validate_tier_ranges
      rw [if_neg hne]
      exact he
    rcases validateLoop_error_shape basis (sortTiers tiers) 0 none e he with ⟨j, hj⟩ | ⟨j, hj⟩
    · subst hj
      exact absurd he (validateLoop_no_invalidRange basis (sortTiers tiers) 0 none j hr')
    · subst hj
      exact ⟨j, he'⟩

/-- Witness for the amended C4: `[(0,10),(5,20)]` has valid ranges and an
overlapping sorted pair, and the validator fails. -/
theorem claim_C4_witness :
    (validate_tier_ranges [cxTier1, cxTier3] Basis.quantity).isOk = false := by
  obtain ⟨j, hj⟩ := claim_C4_amended_tier_validation.2.2.2 [cxTier1, cxTier3] Basis.quantity
    (by
      have hall : ∀ t ∈ sortTiers [cxTier1, cxTier3],
          tierRangeBad Basis.quantity t = false := by decide
      exact fun t ht => (tierRangeBad_eq_false_iff Basis.quantity t).mp (hall t ht))
    (by decide)
  rw [hj]
  rfl

/-! ### Claim C5 -/

/-- C5 counterexample: in `[cxTier1, tierNoLower]` the tier with no lower
bound sorts into the non-leading position (its sort key defaults to 0 and
the sort is stable), and the claim requires `validate_tiers` to fail —
but it succeeds: the missing lower bound exempts the tier from both
checks. -/
theorem claim_C5_counterexample :
    sortTiers [cxTier1, tierNoLower] = [cxTier1, tierNoLower]
    ∧ fromVal Basis.quantity tierNoLower = none
    ∧ validate_tier_ranges [cxTier1, tierNoLower] Basis.quantity = Except.ok () :=
  ⟨by decide, rfl, rfl⟩

/-- C5 amended: a missing lower bound is never itself an error, in any
position: every failure of `validate_tiers` is raised at a tier whose
lower bound for the basis is present (a missing lower bound is treated as
0 only in the sort key and exempts the tier from the range and overlap
checks); in particular a list whose non-leading sorted tier has no lower
bound passes when the other tiers are valid. -/
theorem claim_C5_amended_missing_lower_bound_not_error :
    (∀ (tiers : List RebateTierCreate) (basis : Basis) (e : RebateError),
      validate_tier_ranges tiers basis = Except.error e →
      ∃ t ∈ sortTiers tiers, (fromVal basis t).isSome = true)
    ∧ sortTiers [cxTier1, tierNoLower] = [cxTier1, tierNoLower]
    ∧ fromVal Basis.quantity tierNoLower = none
    ∧ validate_tier_ranges [cxTier1, tierNoLower] Basis.quantity = Except.ok () := by
  refine ⟨?_, by decide, rfl, rfl⟩
  intro tiers basis e h
  unfold validate_tier_ranges at h
  split at h
  · exact absurd h (by simp)
  · exact validateLoop_error_from_present basis (sortTiers tiers) 0 none e h

/-- Witness for the amended C5: the failing list `[(0,10),(5,20)]` fails
at a tier whose lower bound is present. -/
theorem claim_C5_witness :
    (sortTiers [cxTier1, cxTier3]).any
      (fun t => (fromVal Basis.quantity t).isSome) = true := by
  obtain ⟨t, ht, hs⟩ := claim_C5_amended_missing_lower_bound_not_error.1
    [cxTier1, cxTier3] Basis.quantity (RebateError.overlappingTiers 2) (by rfl)
  exact List.any_eq_true.mpr ⟨t, ht, hs⟩

/-! ### Update lemmas -/

lemma update_fst_ne_overlappingAgreement (s : RebateStore) (agreement_id : Int)
    (data : RebateAgreementCreate) (d : String) :
    (update_rebate_agreement s agreement_id data).1 ≠
      Except.error (RebateError.overlappingAgreement d) := by
  unfold update_rebate_agreement
  split
  · simp
  · split
    · simp
    · split
      · simp
      · split
        · next e hv =>
          intro h
          simp only [Prod.fst, Except.error.injEq] at h
          subst h
          by_cases ht : data.tiers = []
          · rw [if_neg (by simpa using ht)] at hv
            exact Except.noConfusion hv
          · rw [if_pos ht] at hv
            rcases validate_error_shape data.tiers data.basis _ hv with ⟨j, hj⟩ | ⟨j, hj⟩ <;>
              exact RebateError.noConfusion hj
        · next u hv =>
          simp [build_response_attributeError]

/-! ### Claim C2 -/

/-- C2 counterexample: updating agreement 2 with data that overlaps the
stored active agreement `exAgreementA` of the same party and
`agreement_type` (dates and products intersect) does not fail with
`OverlappingAgreement`: the overlapping rows are persisted (agreement 2's
associations become `[55]`, the store changes) and the call fails only
afterwards with the `party_id` `AttributeError` of the response
builder. -/
theorem claim_C2_counterexample :
    (exAgreementA ∈ exStoreC.agreements
      ∧ exAgreementA.status = AgreementStatus.active
      ∧ exAgreementA.agreement_type = exDataC.agreement_type
      ∧ exAgreementA.distributor_id = exDataC.distributor_id
      ∧ exDataC.start_date ≤ exAgreementA.end_date
      ∧ exDataC.end_date ≥ exAgreementA.start_date
      ∧ (55 : Int) ∈ exDataC.products
      ∧ (55 : Int) ∈ exStoreC.productIdsOf exAgreementA.id)
    ∧ (∀ d, (update_rebate_agreement exStoreC 2 exDataC).1 ≠
        Except.error (RebateError.overlappingAgreement d))
    ∧ (update_rebate_agreement exStoreC 2 exDataC).1 =
        Except.error (RebateError.attributeError "party_id")
    ∧ (update_rebate_agreement exStoreC 2 exDataC).2 ≠ exStoreC
    ∧ (update_rebate_agreement exStoreC 2 exDataC).2.productIdsOf 2 = [55] :=
  ⟨by decide, fun d => update_fst_ne_overlappingAgreement exStoreC 2 exDataC d,
    rfl, by decide, by decide⟩

/-- C2 amended: `update_rebate_agreement` never runs the Agreement
Conflict Checker — no update fails with `OverlappingAgreement`; an update
whose date range and product set overlap an existing active agreement of
the same party and `agreement_type` replaces the agreement row, tier rows
and association rows, and the call then fails with the `party_id`
`AttributeError` of the response builder, after the rows are
committed. -/
theorem claim_C2_amended_update_never_overlapping :
    (∀ (s : RebateStore) (agreement_id : Int) (data : RebateAgreementCreate) (d : String),
      (update_rebate_agreement s agreement_id data).1 ≠
        Except.error (RebateError.overlappingAgreement d))
    ∧ (update_rebate_agreement exStoreC 2 exDataC).1 =
        Except.error (RebateError.attributeError "party_id")
    ∧ (update_rebate_agreement exStoreC 2 exDataC).2.productIdsOf 2 = [55]
    ∧ (update_rebate_agreement exStoreC 2 exDataC).2 ≠ exStoreC :=
  ⟨update_fst_ne_overlappingAgreement, rfl, by decide, by decide⟩

/-- Witness for the amended C2 at a concrete overlapping update. -/
theorem claim_C2_witness :
    (update_rebate_agreement exStoreC 2 exDataC).1 ≠
      Except.error (RebateError.overlappingAgreement "agreement A") :=
  claim_C2_amended_update_never_overlapping.1 exStoreC 2 exDataC "agreement A"

/-! ### Claim C6 -/

/-- C6: an update of an existing agreement with an empty association set,
an inverted date range, or tiers the validator rejects, fails before any
row is touched: the returned store is exactly the input store. -/
theorem claim_C6_update_fail_fast :
    ∀ (s : RebateStore) (agreement_id : Int) (data : RebateAgreementCreate),
      (s.agreements.find? (fun a => decide (a.id = agreement_id))).isSome = true →
      ((data.products = [] ∧ data.product_category_ids = [])
        ∨ data.start_date ≥ data.end_date
        ∨ (data.tiers ≠ [] ∧
            ∃ e, validate_tier_ranges data.tiers data.basis = Except.error e)) →
      ∃ e, update_rebate_agreement s agreement_id data = (Except.error e, s) := by
  intro s agreement_id data hfind hcond
  obtain ⟨a, ha⟩ := Option.isSome_iff_exists.mp hfind
  simp only [update_rebate_agreement, ha]
  by_cases hc1 : data.products = [] ∧ data.product_category_ids = []
  · exact ⟨RebateError.missingAssociations, by rw [if_pos hc1]⟩
  · rw [if_neg hc1]
    by_cases hc2 : data.start_date ≥ data.end_date
    · exact ⟨RebateError.dateRangeInvalid, by rw [if_pos hc2]⟩
    · rw [if_neg hc2]
      rcases hcond with h1 | h2 | ⟨h3a, e, h3b⟩
      · exact absurd h1 hc1
      · exact absurd h2 hc2
      · refine ⟨e, ?_⟩
        rw [if_pos h3a, h3b]

/-! ### Store-shape lemmas -/

lemma mem_filter_ne {α : Type} (f : α → Int) (v : Int) (l : List α) (x : α)
    (hx : x ∈ l.filter (fun r => decide (f r ≠ v))) : f x ≠ v ∧ x ∈ l := by
  rcases List.mem_filter.mp hx with ⟨h1, h2⟩
  exact ⟨of_decide_eq_true h2, h1⟩

lemma mem_filter_ne_of {α : Type} (f : α → Int) (v : Int) (l : List α) (x : α)
    (hx : x ∈ l) (hne : f x ≠ v) : x ∈ l.filter (fun r => decide (f r ≠ v)) :=
  List.mem_filter.mpr ⟨hx, decide_eq_true hne⟩

lemma mem_tierRowsFrom (basis : Basis) (aid : Int) (auuid : String) :
    ∀ (l : List RebateTierCreate) (seq : Nat) (t : RebateTierRow),
      t ∈ (tierRowsFrom basis aid auuid seq l).1 →
      ∃ td n, t = create_tier_from_data td aid auuid basis (freshUuid n) (n : Int) := by
  intro l
  induction l with
  | nil => intro seq t ht; simp [tierRowsFrom] at ht
  | cons td rest ih =>
    intro seq t ht
    simp only [tierRowsFrom, List.mem_cons] at ht
    rcases ht with h | h
    · exact ⟨td, seq, h⟩
    · exact ih (seq + 1) t h

lemma create_store_unchanged (s : RebateStore) (data : RebateAgreementCreate) :
    (create_rebate_agreement s data).2 = s := by
  unfold create_rebate_agreement
  split
  · rfl
  · split
    · rfl
    · split
      · rfl
      · split
        · rfl
        · next u heq =>
          rw [check_overlapping_attributeError] at heq
          exact Except.noConfusion heq

lemma update_shape_none (s : RebateStore) (agreement_id : Int)
    (data : RebateAgreementCreate)
    (h : s.agreements.find? (fun a => decide (a.id = agreement_id)) = none) :
    update_rebate_agreement s agreement_id data = (Except.ok none, s) := by
  unfold update_rebate_agreement
  rw [h]

lemma update_shape_missing (s : RebateStore) (agreement_id : Int)
    (data : RebateAgreementCreate) (a : RebateAgreementRow)
    (ha : s.agreements.find? (fun x => decide (x.id = agreement_id)) = some a)
    (hc1 : data.products = [] ∧ data.product_category_ids = []) :
    update_rebate_agreement s agreement_id data =
      (Except.error RebateError.missingAssociations, s) := by
  simp only [update_rebate_agreement, ha]
  rw [if_pos hc1]

lemma update_shape_dates (s : RebateStore) (agreement_id : Int)
    (data : RebateAgreementCreate) (a : RebateAgreementRow)
    (ha : s.agreements.find? (fun x => decide (x.id = agreement_id)) = some a)
    (hc1 : ¬(data.products = [] ∧ data.product_category_ids = []))
    (hc2 : data.start_date ≥ data.end_date) :
    update_rebate_agreement s agreement_id data =
      (Except.error RebateError.dateRangeInvalid, s) := by
  simp only [update_rebate_agreement, ha]
  rw [if_neg hc1, if_pos hc2]

lemma update_shape_validate (s : RebateStore) (agreement_id : Int)
    (data : RebateAgreementCreate) (a : RebateAgreementRow) (e : RebateError)
    (ha : s.agreements.find? (fun x => decide (x.id = agreement_id)) = some a)
    (hc1 : ¬(data.products = [] ∧ data.product_category_ids = []))
    (hc2 : ¬(data.start_date ≥ data.end_date))
    (hv : (if data.tiers ≠ [] then validate_tier_ranges data.tiers data.basis
           else Except.ok ()) = Except.error e) :
    update_rebate_agreement s agreement_id data = (Except.error e, s) := by
  simp only [update_rebate_agreement, ha]
  rw [if_neg hc1, if_neg hc2, hv]

lemma update_shape_commit (s : RebateStore) (agreement_id : Int)
    (data : RebateAgreementCreate) (a : RebateAgreementRow) (u : Unit)
    (ha : s.agreements.find? (fun x => decide (x.id = agreement_id)) = some a)
    (hc1 : ¬(data.products = [] ∧ data.product_category_ids = []))
    (hc2 : ¬(data.start_date ≥ data.end_date))
    (hv : (if data.tiers ≠ [] then validate_tier_ranges data.tiers data.basis
           else Except.ok ()) = Except.ok u) :
    update_rebate_agreement s agreement_id data =
      (Except.error (RebateError.attributeError "party_id"),
        updateCommitted s agreement_id data a) := by
  simp only [update_rebate_agreement, ha]
  rw [if_neg hc1, if_neg hc2, hv, build_response_attributeError]

/-! ### Claim C8 -/

/-- C8: `_create_tier_from_data` nulls the range pair not matching the
agreement's basis, whatever the input tier carried; consequently every
tier row persisted for an agreement — via `update_rebate_agreement`'s
commit (recognisable by its post-commit `party_id` error), or via
`create_rebate_agreement`, which never persists anything because the
conflict check fails first — has a null non-basis pair. -/
theorem claim_C8_unused_range_pair_null :
    (∀ (td : RebateTierCreate) (aid : Int) (auuid u : String) (i : Int),
      ((create_tier_from_data td aid auuid Basis.quantity u i).from_amount = none
        ∧ (create_tier_from_data td aid auuid Basis.quantity u i).to_amount = none)
      ∧ ((create_tier_from_data td aid auuid Basis.amount u i).from_quantity = none
        ∧ (create_tier_from_data td aid auuid Basis.amount u i).to_quantity = none))
    ∧ (∀ (s : RebateStore) (data : RebateAgreementCreate),
        (create_rebate_agreement s data).2 = s)
    ∧ (∀ (s : RebateStore) (agreement_id : Int) (data : RebateAgreementCreate)
        (t : RebateTierRow),
        (update_rebate_agreement s agreement_id data).1 =
          Except.error (RebateError.attributeError "party_id") →
        t ∈ (update_rebate_agreement s agreement_id data).2.tiers →
        t.rebate_agreement_id = agreement_id →
        ((data.basis = Basis.quantity → t.from_amount = none ∧ t.to_amount = none)
          ∧ (data.basis = Basis.amount → t.from_quantity = none ∧ t.to_quantity = none))) := by
  refine ⟨fun td aid auuid u i => ⟨⟨rfl, rfl⟩, ⟨rfl, rfl⟩⟩, create_store_unchanged, ?_⟩
  intro s agreement_id data t h1 h2 h3
  rcases hfind : s.agreements.find? (fun x => decide (x.id = agreement_id)) with _ | a
  · rw [update_shape_none s agreement_id data hfind] at h1
    exact absurd h1 (by simp)
  · by_cases hc1 : data.products = [] ∧ data.product_category_ids = []
    · rw [update_shape_missing s agreement_id data a hfind hc1] at h1
      simp at h1
    · by_cases hc2 : data.start_date ≥ data.end_date
      · rw [update_shape_dates s agreement_id data a hfind hc1 hc2] at h1
        simp at h1
      · rcases hv : (if data.tiers ≠ [] then validate_tier_ranges data.tiers data.basis
            else Except.ok ()) with e | u
        · rw [update_shape_validate s agreement_id data a e hfind hc1 hc2 hv] at h1
          simp only [Prod.fst, Except.error.injEq] at h1
          subst h1
          by_cases ht : data.tiers = []
          · rw [if_neg (by simpa using ht)] at hv
            exact Except.noConfusion hv
          · rw [if_pos ht] at hv
            rcases validate_error_shape data.tiers data.basis _ hv with ⟨j, hj⟩ | ⟨j, hj⟩ <;>
              exact RebateError.noConfusion hj
        · rw [update_shape_commit s agreement_id data a u hfind hc1 hc2 hv] at h2
          simp only [updateCommitted] at h2
          rcases List.mem_append.mp h2 with hold | hnew
          · exact absurd h3 (mem_filter_ne (fun r => r.rebate_agreement_id) agreement_id
              s.tiers t hold).1
          · obtain ⟨td, n, rfl⟩ :=
              mem_tierRowsFrom data.basis a.id a.uuid data.tiers _ _ hnew
            constructor
            · intro hb
              rw [hb]
              exact ⟨rfl, rfl⟩
            · intro hb
              rw [hb]
              exact ⟨rfl, rfl⟩

/-- Witness for C8: the concrete update with a tier commits, and the
persisted tier row's amount pair is null even though the input carried
amount values. -/
theorem claim_C8_witness :
    exTierRow.from_amount = none ∧ exTierRow.to_amount = none :=
  (claim_C8_unused_range_pair_null.2.2 exStoreC 2 exDataTier exTierRow
    (by rfl) (by decide) (by rfl)).1 rfl

/-- Witness for C6: updating the stored agreement 2 with an empty
association set fails and leaves the store exactly as it was. -/
theorem claim_C6_witness :
    (update_rebate_agreement exStoreC 2 exDataEmpty).2 = exStoreC ∧
      (update_rebate_agreement exStoreC 2 exDataEmpty).1.isOk = false := by
  obtain ⟨e, he⟩ := claim_C6_update_fail_fast exStoreC 2 exDataEmpty (by decide)
    (Or.inl ⟨rfl, rfl⟩)
  constructor
  · rw [he]
  · rw [he]
    rfl

/-! ### Claim C9 -/

lemma delete_shape_found (s : RebateStore) (agreement_id : Int) (a : RebateAgreementRow)
    (ha : s.agreements.find? (fun x => decide (x.id = agreement_id)) = some a) :
    delete_rebate_agreement s agreement_id =
      (true,
       { s with
         agreements := s.agreements.filter (fun x => decide (x.id ≠ agreement_id))
         agreement_products :=
           s.agreement_products.filter (fun r => decide (r.rebate_agreement_id ≠ agreement_id))
         tiers := s.tiers.filter (fun r => decide (r.rebate_agreement_id ≠ agreement_id))
         claims := s.claims.filter (fun r => decide (r.rebate_agreement_id ≠ agreement_id)) }) := by
  unfold delete_rebate_agreement
  rw [ha]

/-- C9: deleting an existing agreement returns `True` and removes the
agreement row together with every association row, tier row and claim row
referencing it (the declared delete cascades), keeping all rows of other
agreements; deleting an absent id returns `False` with the store
unchanged. -/
theorem claim_C9_delete_cascade (s : RebateStore) (agreement_id : Int) :
    ((s.agreements.find? (fun a => decide (a.id = agreement_id))).isSome = true →
      (delete_rebate_agreement s agreement_id).1 = true
      ∧ (∀ a ∈ (delete_rebate_agreement s agreement_id).2.agreements,
          a.id ≠ agreement_id ∧ a ∈ s.agreements)
      ∧ (∀ a ∈ s.agreements, a.id ≠ agreement_id →
          a ∈ (delete_rebate_agreement s agreement_id).2.agreements)
      ∧ (∀ r ∈ (delete_rebate_agreement s agreement_id).2.agreement_products,
          r.rebate_agreement_id ≠ agreement_id ∧ r ∈ s.agreement_products)
      ∧ (∀ r ∈ s.agreement_products, r.rebate_agreement_id ≠ agreement_id →
          r ∈ (delete_rebate_agreement s agreement_id).2.agreement_products)
      ∧ (∀ r ∈ (delete_rebate_agreement s agreement_id).2.tiers,
          r.rebate_agreement_id ≠ agreement_id ∧ r ∈ s.tiers)
      ∧ (∀ r ∈ s.tiers, r.rebate_agreement_id ≠ agreement_id →
          r ∈ (delete_rebate_agreement s agreement_id).2.tiers)
      ∧ (∀ r ∈ (delete_rebate_agreement s agreement_id).2.claims,
          r.rebate_agreement_id ≠ agreement_id ∧ r ∈ s.claims)
      ∧ (∀ r ∈ s.claims, r.rebate_agreement_id ≠ agreement_id →
          r ∈ (delete_rebate_agreement s agreement_id).2.claims))
    ∧ ((s.agreements.find? (fun a => decide (a.id = agreement_id))).isSome = false →
      delete_rebate_agreement s agreement_id = (false, s)) := by
  constructor
  · intro h
    obtain ⟨a, ha⟩ := Option.isSome_iff_exists.mp h
    rw [delete_shape_found s agreement_id a ha]
    refine ⟨rfl, ?_, ?_, ?_, ?_, ?_, ?_, ?_, ?_⟩
    · exact fun x hx => mem_filter_ne (fun r => r.id) agreement_id s.agreements x hx
    · exact fun x hx hne => mem_filter_ne_of (fun r => r.id) agreement_id s.agreements x hx hne
    · exact fun x hx => mem_filter_ne (fun r => r.rebate_agreement_id) agreement_id
        s.agreement_products x hx
    · exact fun x hx hne => mem_filter_ne_of (fun r => r.rebate_agreement_id) agreement_id
        s.agreement_products x hx hne
    · exact fun x hx => mem_filter_ne (fun r => r.rebate_agreement_id) agreement_id s.tiers x hx
    · exact fun x hx hne => mem_filter_ne_of (fun r => r.rebate_agreement_id) agreement_id
        s.tiers x hx hne
    · exact fun x hx => mem_filter_ne (fun r => r.rebate_agreement_id) agreement_id s.claims x hx
    · exact fun x hx hne => mem_filter_ne_of (fun r => r.rebate_agreement_id) agreement_id
        s.claims x hx hne
  · intro h
    rcases hfind : s.agreements.find? (fun a => decide (a.id = agreement_id)) with _ | a
    · simp only [delete_rebate_agreement, hfind]
    · rw [hfind] at h
      exact absurd h (by simp)

/-- Witness for C9 at the concrete store: deleting agreement 1 succeeds
and no surviving association row references it, while deleting the absent
id 9 changes nothing. -/
theorem claim_C9_witness :
    (delete_rebate_agreement exStoreC 1).1 = true ∧
      delete_rebate_agreement exStoreC 9 = (false, exStoreC) :=
  ⟨((claim_C9_delete_cascade exStoreC 1).1 (by decide)).1,
    (claim_C9_delete_cascade exStoreC 9).2 (by decide)⟩

/-! ### Claim C7 -/

lemma selectTier_unique :
    ∀ (tiers : List SpecTier) (acc : ℚ) (t : SpecTier),
      List.Pairwise specTierDisjoint tiers → selectTier tiers acc = some t →
      ∀ u ∈ tiers, specTierMatches u acc = true → u = t := by
  intro tiers
  induction tiers with
  | nil => intro acc t _ hsel; exact absurd hsel (by simp [selectTier])
  | cons hd tl ih =>
    intro acc t hpw hsel u hu hmu
    rcases List.pairwise_cons.mp hpw with ⟨hdisj, hpw'⟩
    by_cases hm : specTierMatches hd acc = true
    · simp only [selectTier, List.find?, hm, Option.some.injEq] at hsel
      subst hsel
      rcases List.mem_cons.mp hu with h | h
      · exact h
      · exact absurd (And.intro hm hmu) (hdisj u h acc)
    · have hm' := eq_false_of_ne_true hm
      simp only [selectTier, List.find?, hm'] at hsel
      rcases List.mem_cons.mp hu with h | h
      · subst h; exact absurd hmu hm
      · exact ih acc t hpw' hsel u h hmu

/-- C7 (modelled from the spec — the repository contains no Claim
Calculator implementation): `CalculateClaim` produces no claim when the
accumulated value lies below every tier; a selected tier contains the
value, and under pairwise-disjoint tiers it is the unique such tier
(inclusive lower bound, exclusive upper bound, open-ended top tier);
a matched `percentage` tier yields `accumulated * rebate_value / 100`;
and the spec's Scenario A — tiers `[(0,100,5), (100,open,8)]`,
accumulated 150 — matches the open-ended tier and yields 12. -/
theorem claim_C7_calculate_claim :
    (∀ (tiers : List SpecTier) (acc : ℚ),
      (∀ t ∈ tiers, acc < t.lower) → calculateClaim tiers acc = none)
    ∧ (∀ (tiers : List SpecTier) (acc : ℚ) (t : SpecTier),
      List.Pairwise specTierDisjoint tiers → selectTier tiers acc = some t →
      t ∈ tiers ∧ specTierMatches t acc = true ∧
        ∀ u ∈ tiers, specTierMatches u acc = true → u = t)
    ∧ (∀ (tiers : List SpecTier) (acc : ℚ) (t : SpecTier),
      selectTier tiers acc = some t → t.rebate_unit = RebateUnit.percentage →
      calculateClaim tiers acc = some (acc * t.rebate_value / 100))
    ∧ calculateClaim
        [⟨0, some 100, 5, RebateUnit.percentage⟩, ⟨100, none, 8, RebateUnit.percentage⟩]
        150 = some 12 := by
  refine ⟨?_, ?_, ?_, ?_⟩
  · intro tiers acc h
    have hnone : selectTier tiers acc = none := by
      refine List.find?_eq_none.mpr (fun t ht => ?_)
      have hlt : ¬(t.lower ≤ acc) := not_le.mpr (h t ht)
      simp [specTierMatches, hlt]
    simp [calculateClaim, hnone]
  · intro tiers acc t hpw hsel
    have hsel' : List.find? (fun u => specTierMatches u acc) tiers = some t := hsel
    refine ⟨@List.mem_of_find?_eq_some SpecTier (fun u => specTierMatches u acc) t tiers hsel',
      ?_, selectTier_unique tiers acc t hpw hsel⟩
    have hp := @List.find?_some SpecTier (fun u => specTierMatches u acc) t tiers hsel'
    simpa using hp
  · intro tiers acc t hsel hu
    rcases t with ⟨l, up, v, ru⟩
    simp only at hu
    subst hu
    simp [calculateClaim, hsel, specRebateAmount]
  · norm_num [calculateClaim, selectTier, specTierMatches, specRebateAmount, List.find?]

/-- Witness for C7: with a single tier starting at 10, an accumulated
value of 5 produces no claim. -/
theorem claim_C7_witness :
    calculateClaim [⟨10, none, 1, RebateUnit.fixed⟩] 5 = none :=
  claim_C7_calculate_claim.1 [⟨10, none, 1, RebateUnit.fixed⟩] 5 (by decide)

end Knaps
